import Mathlib

/-!
Verification of the chart-generation pipeline (`finrobot/functional/charting.py`):
`MplFinanceUtils.plot_stock_price_chart`, `ReportChartUtils.get_share_performance`
and `ReportChartUtils.get_pe_eps_performance`.

Embedding conventions:
* calendar dates are day numbers in `ℤ`;
* prices and EPS figures are exact rationals `ℚ`;
* a pandas missing value (NaN close returned by `DataFrame.asof` before the
  first index entry) is `Option ℚ` with `none` for NaN;
* the result of a numpy float division is the tagged type `FVal`
  (finite value, `±inf` on division of a nonzero value by zero, `nan`);
* a raised Python exception is an `Except.error` carrying `PyExn`;
* the external collaborators (yfinance fetchers, `os.path.isdir`, `mplfinance`)
  are parameters of the embedded functions.
-/

namespace Charting

/-- Python exception kinds relevant to the embedded functions: the `IndexError`
raised by `Series.iloc[0]` on an empty series, and an exception raised inside
an external library call that propagates through the renderer. -/
inductive PyExn where
  | indexError : PyExn
  | libraryError : String → PyExn
  deriving DecidableEq, Repr

/-- Result of a numpy float64 division: a finite value, a signed infinity
(nonzero numerator, zero denominator), or NaN (missing numerator, or 0/0). -/
inductive FVal where
  | nan : FVal
  | posInf : FVal
  | negInf : FVal
  | num : ℚ → FVal
  deriving DecidableEq, Repr

/-- Division `p / e` as numpy float64 performs it in `pe = [p / e for p, e in zip(...)]`:
a NaN numerator gives NaN; a zero denominator gives `±inf` (or NaN for `0/0`)
without raising; otherwise the exact quotient. -/
def fdiv (c : Option ℚ) (e : ℚ) : FVal :=
  match c with
  | none => .nan
  | some c =>
    if e = 0 then
      if 0 < c then .posInf else if c < 0 then .negInf else .nan
    else .num (c / e)

/-- One OHLCV row of the fetched price table (`plot_stock_price_chart` never
inspects the rows itself; they are passed through to `mpf.plot`). -/
structure OHLCVRow where
  date : ℤ
  openPx : ℚ
  highPx : ℚ
  lowPx : ℚ
  closePx : ℚ
  volume : ℚ
  deriving DecidableEq

/-- The chart types enumerated in the source's parameter annotation:
'candle','ohlc','line','renko','pnf','hollow_and_filled'. -/
def validTypes : List String :=
  ["candle", "ohlc", "line", "renko", "pnf", "hollow_and_filled"]

/-- The styles enumerated in the source's parameter annotation:
'default','classic','charles','yahoo','nightclouds','sas','blueskies','mike'. -/
def validStyles : List String :=
  ["default", "classic", "charles", "yahoo", "nightclouds", "sas", "blueskies", "mike"]

/-- The keyword dictionary `params` built by `plot_stock_price_chart` (after
the comprehension that filters out `None` values, which only `mav` can be;
`mav : Option _` with `none` models the filtered-out entry). -/
structure PlotParams where
  type : String
  style : String
  title : String
  ylabel : String
  volume : Bool
  ylabelLower : String
  mav : Option (List Nat)
  showNontrading : Bool
  savefig : String

/-- Modelled from the spec: `mpf.plot` of the external plotting library
mplfinance (an excluded collaborator; not code of this repository).  It
validates its inputs and raises a library exception on an empty data frame or
an unsupported `type`/`style`; on success it writes exactly the one file named
by `savefig`.  The returned list is the list of file paths written. -/
def mpfPlot (rows : List OHLCVRow) (p : PlotParams) : Except PyExn (List String) :=
  if rows.isEmpty then .error (.libraryError "mplfinance: no data")
  else if !(validTypes.contains p.type) then .error (.libraryError "mplfinance: invalid type")
  else if !(validStyles.contains p.style) then .error (.libraryError "mplfinance: invalid style")
  else .ok [p.savefig]

/-- Embedding of `MplFinanceUtils.plot_stock_price_chart`.  The function
fetches the rows, optionally prints them (`verbose` has no effect on the
result), builds `params` with `savefig := save_path` unchanged, calls
`mpf.plot`, and returns the confirmation string.  There is no `try`/`except`
and no inspection of `save_path`: a library exception propagates, and the
result on success pairs the written files with the returned string. -/
def plot_stock_price_chart
    (get_stock_data : String → String → String → List OHLCVRow)
    (ticker_symbol start_date end_date save_path : String)
    (verbose : Bool) (type : String) (style : String)
    (mav : Option (List Nat)) (show_nontrading : Bool) :
    Except PyExn (List String × String) :=
  let stock_data := get_stock_data ticker_symbol start_date end_date
  let _ := verbose
  let params : PlotParams :=
    { type := type, style := style, title := ticker_symbol ++ " " ++ type ++ " chart",
      ylabel := "Price", volume := true, ylabelLower := "Volume",
      mav := mav, showNontrading := show_nontrading, savefig := save_path }
  match mpfPlot stock_data params with
  | .error e => .error e
  | .ok writes => .ok (writes, type ++ " chart saved to <img " ++ save_path ++ ">")

/-- Embedding of `Series.iloc[0]`: the first element, raising `IndexError`
on an empty series. -/
def iloc0 (xs : List ℚ) : Except PyExn ℚ :=
  match xs with
  | [] => .error .indexError
  | x :: _ => .ok x

/-- Embedding of `((close - close.iloc[0]) / close.iloc[0]) * 100` with the
first element `c0` already extracted.  Exact over `ℚ`; it agrees with the
float computation whenever `c0 ≠ 0` (the theorems carry that hypothesis). -/
def percentChangeFrom (c0 : ℚ) (closes : List ℚ) : List ℚ :=
  closes.map (fun c => (c - c0) / c0 * 100)

/-- Result of `ReportChartUtils.get_share_performance`: the two normalized
series that are plotted, the resolved output path, and the returned string. -/
structure SharePerfOut where
  companyChange : List ℚ
  sp500Change : List ℚ
  plotPath : String
  ret : String
  deriving DecidableEq

/-- Embedding of `ReportChartUtils.get_share_performance`.  `fetchClose s a b`
is `YFinanceUtils.get_stock_data(s, a, b)["Close"]`; `isDir` is
`os.path.isdir(save_path)`.  The code fetches the symbol and then the
hard-coded ticker `"^GSPC"` over `[filing_date - 365 days, filing_date]`,
normalizes each series against its own first close (`iloc[0]`, which raises
`IndexError` on an empty series), resolves the output path by the
directory/verbatim rule, and returns the confirmation string. -/
def get_share_performance
    (fetchClose : String → ℤ → ℤ → List ℚ)
    (ticker_symbol : String) (filing_date : ℤ) (save_path : String) (isDir : Bool) :
    Except PyExn SharePerfOut :=
  let target_close := fetchClose ticker_symbol (filing_date - 365) filing_date
  let sp500_close := fetchClose "^GSPC" (filing_date - 365) filing_date
  match iloc0 target_close with
  | .error e => .error e
  | .ok t0 =>
    match iloc0 sp500_close with
    | .error e => .error e
    | .ok s0 =>
      let company_change := percentChangeFrom t0 target_close
      let sp500_change := percentChangeFrom s0 sp500_close
      let plot_path := if isDir then save_path ++ "/stock_performance.png" else save_path
      .ok { companyChange := company_change, sp500Change := sp500_change,
            plotPath := plot_path,
            ret := "last year stock performance chart saved to <img " ++ plot_path ++ ">" }

/-- Embedding of `historical_data.asof(date)["Close"]` on a chronologically
ordered price table: the close of the last row whose date is `≤ d`, and NaN
(`none`) when every row is later than `d`. -/
def asofClose (prices : List (ℤ × ℚ)) (d : ℤ) : Option ℚ :=
  ((prices.filter (fun r => r.1 ≤ d)).getLast?).map Prod.snd

/-- Embedding of the loop body of `get_pe_eps_performance`:
`if date not in historical_data.index: close_price = historical_data.asof(date)
else: close_price = historical_data.loc[date]`, then `close_price["Close"]`. -/
def matchClose (prices : List (ℤ × ℚ)) (d : ℤ) : Option ℚ :=
  if d ∈ prices.map Prod.fst then
    (prices.find? (fun r => r.1 = d)).map Prod.snd
  else
    asofClose prices d

/-- Embedding of `results[date] = ...` on a Python dict kept as an insertion
ordered association list: assignment to an existing key overwrites in place,
a new key is appended. -/
def dictInsert (m : List (ℤ × Option ℚ)) (k : ℤ) (v : Option ℚ) : List (ℤ × Option ℚ) :=
  if k ∈ m.map Prod.fst then
    m.map (fun p => if p.1 = k then (k, v) else p)
  else m ++ [(k, v)]

/-- Embedding of the `for date in dates:` loop filling `results`. -/
def buildResults (prices : List (ℤ × ℚ)) (ds : List ℤ) : List (ℤ × Option ℚ) :=
  ds.foldl (fun m d => dictInsert m d (matchClose prices d)) []

/-- Embedding of `pe = [p / e for p, e in zip(results.values(), eps.values[::-1])]`
with `filingsRev` the filing rows already in reversed (oldest-first) order. -/
def peSeries (prices : List (ℤ × ℚ)) (filingsRev : List (ℤ × ℚ)) : List FVal :=
  List.zipWith fdiv ((buildResults prices (filingsRev.map Prod.fst)).map Prod.snd)
    (filingsRev.map Prod.snd)

/-- Python's built-in `round` on a rational: round half to even. -/
def pythonRound (q : ℚ) : ℤ :=
  if q - (⌊q⌋ : ℚ) < 1 / 2 then ⌊q⌋
  else if 1 / 2 < q - (⌊q⌋ : ℚ) then ⌊q⌋ + 1
  else if Even ⌊q⌋ then ⌊q⌋ else ⌊q⌋ + 1

/-- Result of `ReportChartUtils.get_pe_eps_performance`: the price-history
fetch window actually requested, the plotted P/E points and reversed EPS
values, the resolved output path, and the returned string. -/
structure PEOut where
  fetchStart : ℤ
  fetchEnd : ℤ
  pe : List FVal
  epsRev : List ℚ
  plotPath : String
  ret : String
  deriving DecidableEq

/-- Embedding of `ReportChartUtils.get_pe_eps_performance`.
`get_income_stmt s` is the `Diluted EPS` row as (filing date, eps) pairs in
the source's column order (newest first); `get_stock_data s a b` is the daily
price table over `[a, b]`.  The code computes
`days = round((years + 1) * 365.25)`, fetches
`[filing_date - days, filing_date]`, reverses the filing dates, fills the
`results` dict by the exact-or-asof match, divides pairwise, resolves the
output path by the directory/verbatim rule and returns the confirmation
string. -/
def get_pe_eps_performance
    (get_income_stmt : String → List (ℤ × ℚ))
    (get_stock_data : String → ℤ → ℤ → List (ℤ × ℚ))
    (ticker_symbol : String) (filing_date : ℤ) (years : ℕ)
    (save_path : String) (isDir : Bool) : PEOut :=
  let eps := get_income_stmt ticker_symbol
  let days := pythonRound (((years : ℚ) + 1) * (365.25 : ℚ))
  let start := filing_date - days
  let historical_data := get_stock_data ticker_symbol start filing_date
  let filingsRev := eps.reverse
  let pe := peSeries historical_data filingsRev
  let plot_path := if isDir then save_path ++ "/pe_performance.png" else save_path
  { fetchStart := start, fetchEnd := filing_date, pe := pe,
    epsRev := filingsRev.map Prod.snd, plotPath := plot_path,
    ret := "pe performance chart saved to <img " ++ plot_path ++ ">" }

/-- All inputs of one render request: the external fetchers together with the
scalar arguments of the three renderers. -/
structure RenderInputs where
  ohlcvFetch : String → String → String → List OHLCVRow
  closeFetch : String → ℤ → ℤ → List ℚ
  priceFetch : String → ℤ → ℤ → List (ℤ × ℚ)
  incomeFetch : String → List (ℤ × ℚ)
  ticker : String
  startDate : String
  endDate : String
  filingDate : ℤ
  years : ℕ
  savePath : String
  isDir : Bool
  verbose : Bool
  chartType : String
  chartStyle : String
  mav : Option (List Nat)
  showNontrading : Bool

/-- One invocation of each of the three renderers on a bundle of inputs. -/
def renderAll (i : RenderInputs) :
    Except PyExn (List String × String) × Except PyExn SharePerfOut × PEOut :=
  (plot_stock_price_chart i.ohlcvFetch i.ticker i.startDate i.endDate i.savePath
     i.verbose i.chartType i.chartStyle i.mav i.showNontrading,
   get_share_performance i.closeFetch i.ticker i.filingDate i.savePath i.isDir,
   get_pe_eps_performance i.incomeFetch i.priceFetch i.ticker i.filingDate i.years
     i.savePath i.isDir)

/-- A concrete bundle of render inputs (used to instantiate the determinism
theorem): fixed fetchers returning small tables and the example arguments of
the source's `__main__` block. -/
def sampleInputs : RenderInputs where
  ohlcvFetch := fun _ _ _ => [⟨0, 1, 2, 0, 1, 5⟩]
  closeFetch := fun s _ _ => if s = "^GSPC" then [100, 102, 99] else [50, 55, 45]
  priceFetch := fun _ _ _ => [(2, 10)]
  incomeFetch := fun _ => [(5, 2), (1, 3)]
  ticker := "AAPL"
  startDate := "2024-03-01"
  endDate := "2024-04-01"
  filingDate := 0
  years := 4
  savePath := "AAPL_candlestick_chart.png"
  isDir := false
  verbose := false
  chartType := "candle"
  chartStyle := "default"
  mav := none
  showNontrading := false

/-- Helper: on a non-empty fetched table and enumerated `type`/`style`,
`plot_stock_price_chart` succeeds, writing exactly `save_path` and returning
the confirmation string built around `save_path`. -/
theorem plot_stock_price_chart_ok
    (ohlcv : String → String → String → List OHLCVRow)
    (ticker sd ed sp : String) (verbose : Bool) (ty st : String)
    (mav : Option (List Nat)) (snt : Bool)
    (hr : ohlcv ticker sd ed ≠ []) (hty : ty ∈ validTypes) (hst : st ∈ validStyles) :
    plot_stock_price_chart ohlcv ticker sd ed sp verbose ty st mav snt
      = Except.ok ([sp], ty ++ " chart saved to <img " ++ sp ++ ">") := by
  have h1 : (ohlcv ticker sd ed).isEmpty = false := by
    simpa [List.isEmpty_iff] using hr
  simp [plot_stock_price_chart, mpfPlot, h1, hty, hst]

/-- Helper: inserting a fresh key appends one entry. -/
theorem dictInsert_fresh (m : List (ℤ × Option ℚ)) (k : ℤ) (v : Option ℚ)
    (h : k ∉ m.map Prod.fst) : dictInsert m k v = m ++ [(k, v)] := by
  simp [dictInsert, h]

/-- Helper: filling a dict from a list of pairwise distinct keys, none already
present, grows the dict by exactly one entry per key. -/
theorem foldl_dictInsert_length (f : ℤ → Option ℚ) (ds : List ℤ) :
    ∀ m : List (ℤ × Option ℚ), ds.Nodup → (∀ d ∈ ds, d ∉ m.map Prod.fst) →
      (ds.foldl (fun m d => dictInsert m d (f d)) m).length = m.length + ds.length := by
  induction ds with
  | nil => intro m _ _; simp
  | cons d ds ih =>
    intro m hnd hfresh
    have hdm : d ∉ m.map Prod.fst := hfresh d (List.mem_cons_self d ds)
    have hstep : dictInsert m d (f d) = m ++ [(d, f d)] := dictInsert_fresh m d (f d) hdm
    have hnd' : ds.Nodup := (List.nodup_cons.mp hnd).2
    have hfresh' : ∀ e ∈ ds, e ∉ (m ++ [(d, f d)]).map Prod.fst := by
      intro e he
      have hne : e ≠ d := by
        intro hcontra
        exact (List.nodup_cons.mp hnd).1 (hcontra ▸ he)
      have hem : e ∉ m.map Prod.fst := hfresh e (List.mem_cons_of_mem d he)
      simp [List.map_append, hem, hne]
    calc ((d :: ds).foldl (fun m d => dictInsert m d (f d)) m).length
        = (ds.foldl (fun m d => dictInsert m d (f d)) (m ++ [(d, f d)])).length := by
          simp [List.foldl_cons, hstep]
      _ = (m ++ [(d, f d)]).length + ds.length := ih (m ++ [(d, f d)]) hnd' hfresh'
      _ = m.length + (d :: ds).length := by simp; omega

/-- Helper: with pairwise distinct filing dates the dict has one entry per
date, so `zip` truncates nothing and the P/E list has one point per filing. -/
theorem peSeries_length (prices : List (ℤ × ℚ)) (filingsRev : List (ℤ × ℚ))
    (hnd : (filingsRev.map Prod.fst).Nodup) :
    (peSeries prices filingsRev).length = filingsRev.length := by
  have hres : (buildResults prices (filingsRev.map Prod.fst)).length
      = (filingsRev.map Prod.fst).length := by
    have := foldl_dictInsert_length (matchClose prices) (filingsRev.map Prod.fst) [] hnd
      (by intro d _ hd; simp at hd)
    simpa [buildResults] using this
  simp [peSeries, List.length_zipWith, hres]

/-- Helper: Python's half-even rounding never undershoots by as much as a half. -/
theorem pythonRound_ge (q : ℚ) : q - 1 / 2 ≤ (pythonRound q : ℚ) := by
  have hfl : ((⌊q⌋ : ℤ) : ℚ) ≤ q := Int.floor_le q
  have hfu : q < ((⌊q⌋ : ℤ) : ℚ) + 1 := Int.lt_floor_add_one q
  unfold pythonRound
  split_ifs with h1 h2 h3
  · linarith
  · push_cast
    linarith
  · linarith
  · push_cast
    linarith

/-- Helper: on non-empty fetched close series, `get_share_performance`
succeeds, and its output consists of the two independently normalized series,
the resolved path and the confirmation string. -/
theorem get_share_performance_ok
    (fetchClose : String → ℤ → ℤ → List ℚ) (ticker sp : String) (fd : ℤ) (isDir : Bool)
    (c0 b0 : ℚ) (cs bs : List ℚ)
    (hc : fetchClose ticker (fd - 365) fd = c0 :: cs)
    (hb : fetchClose "^GSPC" (fd - 365) fd = b0 :: bs) :
    get_share_performance fetchClose ticker fd sp isDir = Except.ok
      { companyChange := percentChangeFrom c0 (c0 :: cs),
        sp500Change := percentChangeFrom b0 (b0 :: bs),
        plotPath := if isDir then sp ++ "/stock_performance.png" else sp,
        ret := "last year stock performance chart saved to <img "
          ++ (if isDir then sp ++ "/stock_performance.png" else sp) ++ ">" } := by
  simp [get_share_performance, hc, hb, iloc0]

/-- C1: in `get_share_performance` each of the two fetched close series is
normalized independently as `(close[i] - close[0]) / close[0] * 100` over its
own window, so for every non-empty series (with the nonzero first close that
the float formula presupposes) the value at its first date is exactly 0. -/
theorem share_perf_normalization
    (fetchClose : String → ℤ → ℤ → List ℚ) (ticker sp : String) (fd : ℤ) (isDir : Bool)
    (c0 b0 : ℚ) (cs bs : List ℚ)
    (hc : fetchClose ticker (fd - 365) fd = c0 :: cs)
    (hb : fetchClose "^GSPC" (fd - 365) fd = b0 :: bs)
    (hc0 : c0 ≠ 0) (hb0 : b0 ≠ 0) :
    ∃ out, get_share_performance fetchClose ticker fd sp isDir = Except.ok out ∧
      out.companyChange.head? = some 0 ∧
      out.sp500Change.head? = some 0 ∧
      (∀ i : ℕ, out.companyChange[i]?
        = ((c0 :: cs)[i]?).map (fun c => (c - c0) / c0 * 100)) ∧
      (∀ i : ℕ, out.sp500Change[i]?
        = ((b0 :: bs)[i]?).map (fun c => (c - b0) / b0 * 100)) := by
  refine ⟨_, get_share_performance_ok fetchClose ticker sp fd isDir c0 b0 cs bs hc hb,
    ?_, ?_, ?_, ?_⟩
  · simp [percentChangeFrom]
  · simp [percentChangeFrom]
  · intro i
    cases i with
    | zero => simp [percentChangeFrom]
    | succ n => simp [percentChangeFrom, List.getElem?_map]
  · intro i
    cases i with
    | zero => simp [percentChangeFrom]
    | succ n => simp [percentChangeFrom, List.getElem?_map]

/-- Witness for C1 at the spec's example data: benchmark closes 100, 102, 99
and symbol closes 50, 55, 45 over three dates. -/
theorem share_perf_normalization_witness :
    ∃ out, get_share_performance
        (fun s _ _ => if s = "^GSPC" then [100, 102, 99] else [50, 55, 45])
        "AAPL" 0 "plot.png" false = Except.ok out ∧
      out.companyChange.head? = some 0 ∧
      out.sp500Change.head? = some 0 ∧
      (∀ i : ℕ, out.companyChange[i]?
        = ((50 :: [55, 45] : List ℚ)[i]?).map (fun c => (c - 50) / 50 * 100)) ∧
      (∀ i : ℕ, out.sp500Change[i]?
        = ((100 :: [102, 99] : List ℚ)[i]?).map (fun c => (c - 100) / 100 * 100)) :=
  share_perf_normalization
    (fun s _ _ => if s = "^GSPC" then [100, 102, 99] else [50, 55, 45])
    "AAPL" "plot.png" 0 false 50 100 [55, 45] [102, 99]
    (by decide) (by decide) (by norm_num) (by norm_num)

/-- C3 (failing input): a filing event with diluted EPS 0 whose date has an
exact price match at close 10.  The code computes `p / e` with numpy float64
semantics and silently yields an infinite P/E point; nothing raises and no
explicit DivisionByZero error is produced. -/
theorem pe_eps_zero_division_inf :
    (get_pe_eps_performance (fun _ => [(10, 0)]) (fun _ _ _ => [(10, 10)])
        "AAPL" 10 4 "plot.png" false).pe = [FVal.posInf] := by
  decide

/-- C5 (counterexample): with zero fetched rows, `get_share_performance`
surfaces the raw `IndexError` raised by `iloc[0]` and
`plot_stock_price_chart` propagates the plotting library's exception —
neither returns a distinguishable `Error(NoData)` failure value. -/
theorem share_perf_nodata_counterexample :
    get_share_performance (fun _ _ _ => []) "AAPL" 0 "plot.png" false
        = Except.error PyExn.indexError ∧
    plot_stock_price_chart (fun _ _ _ => []) "AAPL" "2024-03-01" "2024-04-01"
        "chart.png" false "candle" "default" none false
        = Except.error (PyExn.libraryError "mplfinance: no data") :=
  ⟨rfl, rfl⟩

/-- C5 (amended): the renderers define no failure values of their own; on an
empty fetch result `get_share_performance` raises `IndexError` from
`iloc[0]` and `plot_stock_price_chart` lets the plotting library's exception
propagate unclassified. -/
theorem renderers_exception_propagation
    (fetchClose : String → ℤ → ℤ → List ℚ)
    (ohlcv : String → String → String → List OHLCVRow)
    (ticker sd ed sp : String) (fd : ℤ) (isDir verbose snt : Bool)
    (ty st : String) (mav : Option (List Nat))
    (h1 : fetchClose ticker (fd - 365) fd = [])
    (h2 : ohlcv ticker sd ed = []) :
    get_share_performance fetchClose ticker fd sp isDir
        = Except.error PyExn.indexError ∧
    plot_stock_price_chart ohlcv ticker sd ed sp verbose ty st mav snt
        = Except.error (PyExn.libraryError "mplfinance: no data") := by
  constructor
  · simp [get_share_performance, h1, iloc0]
  · simp [plot_stock_price_chart, h2, mpfPlot]

/-- Witness for the amended C5 at concrete empty fetchers. -/
theorem renderers_exception_propagation_witness :
    get_share_performance (fun _ _ _ => []) "MSFT" 7 "out.png" true
        = Except.error PyExn.indexError ∧
    plot_stock_price_chart (fun _ _ _ => []) "MSFT" "2024-01-01" "2024-02-01"
        "out.png" true "line" "classic" none true
        = Except.error (PyExn.libraryError "mplfinance: no data") :=
  renderers_exception_propagation (fun _ _ _ => []) (fun _ _ _ => [])
    "MSFT" "2024-01-01" "2024-02-01" "out.png" 7 true true true "line" "classic" none
    rfl rfl

/-- C6 (counterexample): `save_path` `"chart"` has no file extension, yet the
file written and the path in the returned string are `"chart"` verbatim — no
`.png` is appended and no directory handling exists in
`plot_stock_price_chart`. -/
theorem save_path_extension_counterexample :
    plot_stock_price_chart (fun _ _ _ => [⟨0, 1, 2, 0, 1, 5⟩]) "AAPL" "2024-03-01"
        "2024-04-01" "chart" false "candle" "default" none false
        = Except.ok (["chart"], "candle chart saved to <img chart>") ∧
    ("chart" : String) ≠ "chart.png" :=
  ⟨rfl, by decide⟩

/-- C6 (amended): `plot_stock_price_chart` uses `save_path` verbatim in every
case — it is passed unchanged to the plotting call's `savefig` and embedded
unchanged in the returned string, with no extension or directory logic. -/
theorem save_path_verbatim
    (ohlcv : String → String → String → List OHLCVRow)
    (ticker sd ed sp : String) (verbose : Bool) (ty st : String)
    (mav : Option (List Nat)) (snt : Bool)
    (hr : ohlcv ticker sd ed ≠ []) (hty : ty ∈ validTypes) (hst : st ∈ validStyles) :
    plot_stock_price_chart ohlcv ticker sd ed sp verbose ty st mav snt
      = Except.ok ([sp], ty ++ " chart saved to <img " ++ sp ++ ">") :=
  plot_stock_price_chart_ok ohlcv ticker sd ed sp verbose ty st mav snt hr hty hst

/-- Witness for the amended C6: a save path with an extension and one
without are both used verbatim. -/
theorem save_path_verbatim_witness :
    plot_stock_price_chart (fun _ _ _ => [⟨0, 1, 2, 0, 1, 5⟩]) "AAPL" "2024-03-01"
        "2024-04-01" "mydir" false "ohlc" "yahoo" none false
      = Except.ok (["mydir"], "ohlc chart saved to <img mydir>") :=
  save_path_verbatim (fun _ _ _ => [⟨0, 1, 2, 0, 1, 5⟩]) "AAPL" "2024-03-01"
    "2024-04-01" "mydir" false "ohlc" "yahoo" none false
    (by simp) (by simp [validTypes]) (by simp [validStyles])

/-- C8: for a non-empty fetched row set and enumerated configuration,
`plot_stock_price_chart` writes exactly one image file, at the resolved path
(`save_path` itself), and returns a confirmation string containing that
path. -/
theorem plot_chart_single_write
    (ohlcv : String → String → String → List OHLCVRow)
    (ticker sd ed sp : String) (verbose : Bool) (ty st : String)
    (mav : Option (List Nat)) (snt : Bool)
    (hr : ohlcv ticker sd ed ≠ []) (hty : ty ∈ validTypes) (hst : st ∈ validStyles) :
    ∃ writes ret, plot_stock_price_chart ohlcv ticker sd ed sp verbose ty st mav snt
        = Except.ok (writes, ret) ∧
      writes.length = 1 ∧ writes = [sp] ∧
      ∃ pre post, ret = pre ++ sp ++ post :=
  ⟨[sp], ty ++ " chart saved to <img " ++ sp ++ ">",
    plot_stock_price_chart_ok ohlcv ticker sd ed sp verbose ty st mav snt hr hty hst,
    rfl, rfl, ty ++ " chart saved to <img ", ">", rfl⟩

/-- Witness for C8 at the source's `__main__` example arguments. -/
theorem plot_chart_single_write_witness :
    ∃ writes ret, plot_stock_price_chart (fun _ _ _ => [⟨0, 1, 2, 0, 1, 5⟩])
        "AAPL" "2024-03-01" "2024-04-01" "AAPL_candlestick_chart.png"
        false "candle" "default" none false
        = Except.ok (writes, ret) ∧
      writes.length = 1 ∧ writes = ["AAPL_candlestick_chart.png"] ∧
      ∃ pre post, ret = pre ++ "AAPL_candlestick_chart.png" ++ post :=
  plot_chart_single_write (fun _ _ _ => [⟨0, 1, 2, 0, 1, 5⟩])
    "AAPL" "2024-03-01" "2024-04-01" "AAPL_candlestick_chart.png"
    false "candle" "default" none false
    (by simp) (by simp [validTypes]) (by simp [validStyles])

/-- C2 (counterexample): one price row at date 2, one filing at date 1, i.e.
the filing date is earlier than the earliest price row.  The claim says no
P/E point is produced for it, so the P/E series would have as many points as
filings with a resolvable match (zero here); the code instead stores the NaN
returned by `asof` and emits one NaN point. -/
theorem pe_asof_counterexample :
    (get_pe_eps_performance (fun _ => [(1, 3)]) (fun _ _ _ => [(2, 10)])
        "AAPL" 100 4 "plot.png" false).pe = [FVal.nan] ∧
    (List.filter (fun f => (matchClose [(2, 10)] f.1).isSome)
        [((1 : ℤ), (3 : ℚ))]).length = 0 :=
  ⟨by decide, by decide⟩

/-- C2 (amended): for every filing date F with an exact entry in the price
index its own close is used; otherwise the close of the most recent price
date ≤ F is used; a filing earlier than the earliest price row gets a NaN
close, and the point is still emitted (as NaN, dividing NaN by eps), never
dropped — so with pairwise distinct filing dates the number of P/E points
equals the total number of filing events. -/
theorem pe_asof_join
    (get_income_stmt : String → List (ℤ × ℚ))
    (get_stock_data : String → ℤ → ℤ → List (ℤ × ℚ))
    (ticker sp : String) (fd : ℤ) (years : ℕ) (isDir : Bool)
    (hnd : (((get_income_stmt ticker).reverse).map Prod.fst).Nodup) :
    (get_pe_eps_performance get_income_stmt get_stock_data ticker fd years sp
        isDir).pe.length = (get_income_stmt ticker).length ∧
    (∀ (D : ℤ) (c : ℚ) (rest : List (ℤ × ℚ)), matchClose ((D, c) :: rest) D = some c) ∧
    (∀ (D1 D2 D3 F : ℤ) (c1 c2 c3 : ℚ), D1 < D2 → D2 < D3 → D1 < F → F < D2 →
      matchClose [(D1, c1), (D2, c2), (D3, c3)] F = some c1) ∧
    (∀ (F : ℤ) (prices : List (ℤ × ℚ)), (∀ p ∈ prices, F < p.1) →
      matchClose prices F = none) ∧
    (∀ (F : ℤ) (e : ℚ) (prices : List (ℤ × ℚ)), (∀ p ∈ prices, F < p.1) →
      fdiv (matchClose prices F) e = FVal.nan) := by
  have hnone : ∀ (F : ℤ) (prices : List (ℤ × ℚ)), (∀ p ∈ prices, F < p.1) →
      matchClose prices F = none := by
    intro F prices h
    have hmem : F ∉ prices.map Prod.fst := by
      simp only [List.mem_map]
      rintro ⟨p, hp, hpF⟩
      have := h p hp
      omega
    rw [matchClose, if_neg hmem, asofClose]
    have hfil : prices.filter (fun r => r.1 ≤ F) = [] := by
      rw [List.filter_eq_nil_iff]
      intro p hp
      simp only [decide_eq_true_eq]
      have := h p hp
      omega
    rw [hfil]
    rfl
  refine ⟨?_, ?_, ?_, hnone, ?_⟩
  · have h := peSeries_length (get_stock_data ticker
      (fd - pythonRound (((years : ℚ) + 1) * (365.25 : ℚ))) fd)
      ((get_income_stmt ticker).reverse) hnd
    simpa [get_pe_eps_performance] using h
  · intro D c rest
    have hmem : D ∈ ((D, c) :: rest).map Prod.fst := by simp
    rw [matchClose, if_pos hmem, List.find?_cons_of_pos _ (by simp)]
    rfl
  · intro D1 D2 D3 F c1 c2 c3 h12 h23 h1F hF2
    have hmem : F ∉ [(D1, c1), (D2, c2), (D3, c3)].map Prod.fst := by
      intro hmem
      simp only [List.map_cons, List.map_nil, List.mem_cons,
        List.not_mem_nil, or_false] at hmem
      rcases hmem with h | h | h <;> omega
    rw [matchClose, if_neg hmem, asofClose]
    have e1 : D1 ≤ F := le_of_lt h1F
    have e2 : ¬D2 ≤ F := by omega
    have e3 : ¬D3 ≤ F := by omega
    simp [List.filter_cons, e1, e2, e3]
  · intro F e prices h
    rw [hnone F prices h]
    rfl

/-- Witness for the amended C2: two filings (newest first) at dates 5 and 1,
one price row at date 2. -/
theorem pe_asof_join_witness :
    (get_pe_eps_performance (fun _ => [(5, 2), (1, 3)]) (fun _ _ _ => [(2, 10)])
        "AAPL" 0 4 "plot.png" false).pe.length
        = ([((5 : ℤ), (2 : ℚ)), (1, 3)] : List (ℤ × ℚ)).length ∧
    (∀ (D : ℤ) (c : ℚ) (rest : List (ℤ × ℚ)), matchClose ((D, c) :: rest) D = some c) ∧
    (∀ (D1 D2 D3 F : ℤ) (c1 c2 c3 : ℚ), D1 < D2 → D2 < D3 → D1 < F → F < D2 →
      matchClose [(D1, c1), (D2, c2), (D3, c3)] F = some c1) ∧
    (∀ (F : ℤ) (prices : List (ℤ × ℚ)), (∀ p ∈ prices, F < p.1) →
      matchClose prices F = none) ∧
    (∀ (F : ℤ) (e : ℚ) (prices : List (ℤ × ℚ)), (∀ p ∈ prices, F < p.1) →
      fdiv (matchClose prices F) e = FVal.nan) :=
  pe_asof_join (fun _ => [(5, 2), (1, 3)]) (fun _ _ _ => [(2, 10)])
    "AAPL" "plot.png" 0 4 false (by decide)

/-- C4 (counterexample): with `lookback_years = 4` and `as_of_date` at day 0
the code requests prices from day `-1826` (`round((4 + 1) * 365.25)` days
back), not from day `-1460` (`4 × 365` days back) as the claim states. -/
theorem pe_fetch_window_counterexample :
    (get_pe_eps_performance (fun _ => []) (fun _ _ _ => []) "AAPL" 0 4 "plot.png"
        false).fetchStart = -1826 ∧ (-1826 : ℤ) ≠ 0 - 4 * 365 := by
  constructor
  · have hq : ((4 : ℚ) + 1) * (365.25 : ℚ) = 7305 / 4 := by norm_num
    have hfl : ⌊(7305 / 4 : ℚ)⌋ = 1826 := by
      rw [Int.floor_eq_iff]
      norm_num
    have hpr : pythonRound (7305 / 4 : ℚ) = 1826 := by
      unfold pythonRound
      rw [hfl]
      norm_num
    simp [get_pe_eps_performance, hq, hpr]
  · decide

/-- C4 (amended): the price-history fetch range is exactly
`[as_of_date − round((lookback_years + 1) × 365.25) days, as_of_date]`
(Python's half-even `round`); in particular it is always strictly longer than
the `lookback_years × 365`-day window the claim states. -/
theorem pe_fetch_window
    (gi : String → List (ℤ × ℚ)) (gs : String → ℤ → ℤ → List (ℤ × ℚ))
    (ticker sp : String) (fd : ℤ) (years : ℕ) (isDir : Bool) (hy : 1 ≤ years) :
    (get_pe_eps_performance gi gs ticker fd years sp isDir).fetchEnd = fd ∧
    (get_pe_eps_performance gi gs ticker fd years sp isDir).fetchStart
        = fd - pythonRound (((years : ℚ) + 1) * (365.25 : ℚ)) ∧
    fd - (get_pe_eps_performance gi gs ticker fd years sp isDir).fetchStart
        > (years : ℤ) * 365 := by
  refine ⟨rfl, rfl, ?_⟩
  have h1 := pythonRound_ge (((years : ℚ) + 1) * (365.25 : ℚ))
  have hy' : (0 : ℚ) ≤ (years : ℚ) := Nat.cast_nonneg years
  have h2 : ((years : ℚ) * 365)
      < (pythonRound (((years : ℚ) + 1) * (365.25 : ℚ)) : ℚ) := by
    nlinarith
  have h3 : (years : ℤ) * 365 < pythonRound (((years : ℚ) + 1) * (365.25 : ℚ)) := by
    exact_mod_cast h2
  simp only [get_pe_eps_performance]
  omega

/-- Witness for the amended C4 at `lookback_years = 1`, `as_of_date = 0`. -/
theorem pe_fetch_window_witness :
    (get_pe_eps_performance (fun _ => []) (fun _ _ _ => []) "AAPL" 0 1 "p"
        false).fetchEnd = 0 ∧
    (get_pe_eps_performance (fun _ => []) (fun _ _ _ => []) "AAPL" 0 1 "p"
        false).fetchStart = 0 - pythonRound ((((1 : ℕ) : ℚ) + 1) * (365.25 : ℚ)) ∧
    0 - (get_pe_eps_performance (fun _ => []) (fun _ _ _ => []) "AAPL" 0 1 "p"
        false).fetchStart > ((1 : ℕ) : ℤ) * 365 :=
  pe_fetch_window (fun _ => []) (fun _ _ _ => []) "AAPL" "p" 0 1 false (by decide)

/-- C7: `get_share_performance` writes to `<save_path>/stock_performance.png`
when `save_path` is an existing directory and to `save_path` verbatim
otherwise; `get_pe_eps_performance` likewise with `pe_performance.png`. -/
theorem output_path_convention
    (fetchClose : String → ℤ → ℤ → List ℚ)
    (gi : String → List (ℤ × ℚ)) (gs : String → ℤ → ℤ → List (ℤ × ℚ))
    (ticker sp : String) (fd : ℤ) (years : ℕ) (isDir : Bool)
    (c0 b0 : ℚ) (cs bs : List ℚ)
    (hc : fetchClose ticker (fd - 365) fd = c0 :: cs)
    (hb : fetchClose "^GSPC" (fd - 365) fd = b0 :: bs) :
    (∃ out, get_share_performance fetchClose ticker fd sp isDir = Except.ok out ∧
      out.plotPath = (if isDir then sp ++ "/stock_performance.png" else sp)) ∧
    (get_pe_eps_performance gi gs ticker fd years sp isDir).plotPath
        = (if isDir then sp ++ "/pe_performance.png" else sp) :=
  ⟨⟨_, get_share_performance_ok fetchClose ticker sp fd isDir c0 b0 cs bs hc hb, rfl⟩,
    rfl⟩

/-- Witness for C7 with `isDir = true` and a one-row fetch. -/
theorem output_path_convention_witness :
    (∃ out, get_share_performance (fun _ _ _ => [10]) "AAPL" 0 "outdir" true
        = Except.ok out ∧
      out.plotPath = (if true then "outdir" ++ "/stock_performance.png" else "outdir")) ∧
    (get_pe_eps_performance (fun _ => []) (fun _ _ _ => []) "AAPL" 0 4 "outdir"
        true).plotPath = (if true then "outdir" ++ "/pe_performance.png" else "outdir") :=
  output_path_convention (fun _ _ _ => [10]) (fun _ => []) (fun _ _ _ => [])
    "AAPL" "outdir" 0 4 true 10 10 [] [] rfl rfl

/-- C9: the renderers are deterministic — each is a pure function of the
fetched data and configuration; two calls on identical inputs (same fetched
tables, same configuration, same save path) produce equal outputs. -/
theorem renderers_deterministic (i j : RenderInputs) (h : i = j) :
    renderAll i = renderAll j :=
  congrArg renderAll h

/-- Witness for C9: two invocations on the same concrete input bundle. -/
theorem renderers_deterministic_witness :
    renderAll sampleInputs = renderAll sampleInputs :=
  renderers_deterministic sampleInputs sampleInputs rfl

/-- C10: `get_share_performance` always compares against the hard-coded
benchmark ticker `"^GSPC"`; the benchmark is not a parameter, so for every
symbol the second plotted series is the normalized `"^GSPC"` closes over the
same window — identical across different symbols under the same fetcher. -/
theorem benchmark_hardcoded_gspc
    (fetchClose : String → ℤ → ℤ → List ℚ) (s1 s2 sp : String) (fd : ℤ) (isDir : Bool)
    (c0 d0 b0 : ℚ) (cs ds bs : List ℚ)
    (h1 : fetchClose s1 (fd - 365) fd = c0 :: cs)
    (h2 : fetchClose s2 (fd - 365) fd = d0 :: ds)
    (hb : fetchClose "^GSPC" (fd - 365) fd = b0 :: bs) :
    ∃ o1 o2, get_share_performance fetchClose s1 fd sp isDir = Except.ok o1 ∧
      get_share_performance fetchClose s2 fd sp isDir = Except.ok o2 ∧
      o1.sp500Change = o2.sp500Change ∧
      o1.sp500Change = percentChangeFrom b0 (b0 :: bs) :=
  ⟨_, _, get_share_performance_ok fetchClose s1 sp fd isDir c0 b0 cs bs h1 hb,
    get_share_performance_ok fetchClose s2 sp fd isDir d0 b0 ds bs h2 hb,
    rfl, rfl⟩

/-- Witness for C10: two different symbols under one fetcher yield the same
benchmark series, the normalized `"^GSPC"` closes. -/
theorem benchmark_hardcoded_gspc_witness :
    ∃ o1 o2, get_share_performance
        (fun s _ _ => if s = "^GSPC" then [100, 102, 99] else [50, 55, 45])
        "AAPL" 0 "plot.png" false = Except.ok o1 ∧
      get_share_performance
        (fun s _ _ => if s = "^GSPC" then [100, 102, 99] else [50, 55, 45])
        "MSFT" 0 "plot.png" false = Except.ok o2 ∧
      o1.sp500Change = o2.sp500Change ∧
      o1.sp500Change = percentChangeFrom 100 (100 :: [102, 99]) :=
  benchmark_hardcoded_gspc
    (fun s _ _ => if s = "^GSPC" then [100, 102, 99] else [50, 55, 45])
    "AAPL" "MSFT" "plot.png" 0 false 50 50 100 [55, 45] [55, 45] [102, 99]
    (by decide) (by decide) (by decide)

end Charting
